import Mathlib

/-!
# Verification of the SIM7670G modem / WebSocket client stack

Shallow embedding of the C sources under `src/` (command engine, socket
layer, modem session queries, WebSocket client) together with theorems
settling the specification claims.  Bytes are modelled as natural numbers
below 256 (C `char` data is treated as octets); C strings become `List Nat`;
`strstr`-style scanning becomes an executable substring search.  Reads from
the UART are modelled as a finite list of chunks (each chunk one successful
`uart_read_bytes` call); the end of the list models expiry of the overall
deadline.
-/

set_option maxRecDepth 20000

/-! ## Embedded definitions (translated from the C sources) -/

/-- ASCII bytes of a Lean string literal, used to transcribe the C string
    literals appearing in the source. -/
def bytes (s : String) : List Nat := s.data.map Char.toNat

/-- `startsWithL s p` : the byte list `s` begins with the pattern `p`
    (the inner comparison of a C `strstr`/`memcmp` scan). -/
def startsWithL : List Nat → List Nat → Bool
  | _, [] => true
  | [], _ :: _ => false
  | a :: s, b :: p => a == b && startsWithL s p

/-- Index of the first occurrence of pattern `p` in `s`, if any
    (C `strstr`, returning an offset instead of a pointer). -/
def findSub : List Nat → List Nat → Option Nat
  | s, p =>
    match s with
    | [] => if startsWithL [] p then some 0 else none
    | _ :: rest =>
      if startsWithL s p then some 0
      else (findSub rest p).map (· + 1)

/-- `hasSub s p` : pattern `p` occurs somewhere in `s` (C `strstr ≠ NULL`). -/
def hasSub (s p : List Nat) : Bool := (findSub s p).isSome

/-- Decimal digit run parser used by `atoi`: consumes leading digits,
    accumulating their value. -/
def parseDigits : List Nat → Nat → Nat
  | c :: rest, acc =>
    if 48 ≤ c && c ≤ 57 then parseDigits rest (acc * 10 + (c - 48)) else acc
  | [], acc => acc

/-- C `isspace` for the characters `atoi` skips. -/
def isSpaceByte (c : Nat) : Bool := c == 32 || (9 ≤ c && c ≤ 13)

/-- C `atoi`: skip whitespace, optional sign, then a digit run (0 when no
    digits follow).  Overflow is irrelevant for the small counts parsed here. -/
def atoi (s : List Nat) : Int :=
  let s1 := s.dropWhile (fun c => isSpaceByte c)
  match s1 with
  | 43 :: rest => (parseDigits rest 0 : Int)
  | 45 :: rest => -(parseDigits rest 0 : Int)
  | _ => (parseDigits s1 0 : Int)

/-- `esp_err_t` values that the embedded functions return. -/
inductive EspErr where
  | ok
  | fail
  | invalidArg
  | invalidState
  | timeout
  | notFound
  deriving DecidableEq, Repr

/-- Capacity of the accumulation buffer: `sizeof(at_response_buffer) - 1`. -/
def AT_BUF_CAP : Nat := 4095

/-- The read-accumulate loop of `send_at_command`: consume chunks while the
    total stays below capacity, appending each chunk truncated to the space
    left, and stop as soon as the accumulated text contains one of the
    completion markers `"OK"`, `"ERROR"`, `"FAIL"`.  An empty chunk models a
    100 ms sub-read that returned no bytes (`bytes_read ≤ 0`), which performs
    no marker check. -/
def atAccumulate : List (List Nat) → List Nat → List Nat
  | [], acc => acc
  | c :: rest, acc =>
    if AT_BUF_CAP ≤ acc.length then acc
    else if c.isEmpty then atAccumulate rest acc
    else
      let acc2 := acc ++ c.take (AT_BUF_CAP - acc.length)
      if hasSub acc2 (bytes "OK") || hasSub acc2 (bytes "ERROR")
          || hasSub acc2 (bytes "FAIL") then acc2
      else atAccumulate rest acc2

/-- Result of one command-engine transaction: the captured text and the
    success flag. -/
structure AtResult where
  text : List Nat
  success : Bool
  deriving DecidableEq, Repr

/-- `send_at_command` (response-collection part): the accumulated text is
    returned and `success = (total_read > 0) && strstr(buffer, "OK")`. -/
def send_at_command (chunks : List (List Nat)) : AtResult :=
  let acc := atAccumulate chunks []
  { text := acc, success := !acc.isEmpty && hasSub acc (bytes "OK") }

/-- Confirmation-wait logic of `sim7670g_tcp_send` in sim7670g_modem.c
    (lines 724-785), evaluated on the full confirmation bytes: the byte
    patterns "SEND OK" and "+CIPSEND:" are searched (in that order, each
    before "ERROR") and finding either declares success; the requested
    length is never compared with any reported count. -/
def tcp_send_confirm_main (resp : List Nat) : Bool :=
  if hasSub resp (bytes "SEND OK") then true
  else if hasSub resp (bytes "+CIPSEND:") then true
  else if hasSub resp (bytes "ERROR") then false
  else false

/-- Confirmation logic of the variant `sim7670g_tcp_send.c` (lines 84-106):
    `success` is first set from the presence of "+CIPSEND: 0," or "SEND OK";
    when "+CIPSEND: 0," is present, the reported count is parsed with
    `atoi(pos + 12)` and compared with the requested length, but the mismatch
    branch only logs an error — `success` keeps its earlier value (the code
    never assigns `success = false` there). -/
def tcp_send_confirm_variant (len : Nat) (resp : List Nat) : Bool :=
  let success := hasSub resp (bytes "+CIPSEND: 0,")
    || hasSub resp (bytes "SEND OK")
  if hasSub resp (bytes "+CIPSEND: 0,") then
    match findSub resp (bytes "+CIPSEND: 0,") with
    | some i => if atoi (resp.drop (i + 12)) == (len : Int) then true else success
    | none => success
  else if hasSub resp (bytes "SEND OK") then true
  else success

/-- The sent-count field of a "+CIPSEND: 0,<n>" confirmation, parsed the way
    the variant parses it. -/
def cipsendCount (resp : List Nat) : Option Int :=
  (findSub resp (bytes "+CIPSEND: 0,")).map (fun i => atoi (resp.drop (i + 12)))

/-- SIM card states (`sim_status_t`). -/
inductive SimStatus where
  | simError
  | locked
  | ready
  deriving DecidableEq, Repr

/-- Network registration states (`reg_status_t`). -/
inductive RegStatus where
  | unknown
  | notRegistered
  | okHome
  | searching
  | denied
  | okRoaming
  deriving DecidableEq, Repr

/-- The `switch (status)` of `sim7670g_get_registration_status`
    (sim7670g_modem.c lines 347-354). -/
def regMap (status : Int) : RegStatus :=
  if status = 0 then RegStatus.notRegistered
  else if status = 1 then RegStatus.okHome
  else if status = 2 then RegStatus.searching
  else if status = 3 then RegStatus.denied
  else if status = 5 then RegStatus.okRoaming
  else RegStatus.unknown

/-- `sim7670g_get_registration_status` (lines 321-365): run the AT+CREG?
    transaction, locate "+CREG:", find the comma after it (`strchr`), parse
    the status with `atoi` and map it; any parse failure yields `unknown`. -/
def sim7670g_get_registration_status (chunks : List (List Nat)) : RegStatus :=
  let r := send_at_command chunks
  if !r.success then RegStatus.unknown
  else
    match findSub r.text (bytes "+CREG:") with
    | none => RegStatus.unknown
    | some i =>
      match findSub (r.text.drop i) [44] with
      | none => RegStatus.unknown
      | some j => regMap (atoi ((r.text.drop i).drop (j + 1)))

/-- The status fields that `sim7670g_is_ready` consults. -/
structure ModemReadyStatus where
  initialized : Bool
  at_responsive : Bool
  sim_status : SimStatus
  registration_status : RegStatus
  pdp_active : Bool
  deriving DecidableEq, Repr

/-- `sim7670g_is_ready` (sim7670g_modem.c lines 507-515). -/
def sim7670g_is_ready (s : ModemReadyStatus) : Bool :=
  s.initialized && s.at_responsive && s.sim_status == SimStatus.ready &&
    (s.registration_status == RegStatus.okHome ||
      s.registration_status == RegStatus.okRoaming) &&
    s.pdp_active

/-- `websocket_state_t`. -/
inductive WsState where
  | disconnected
  | connecting
  | connected
  | stateError
  deriving DecidableEq, Repr

/-- Events delivered to the client's event callback. -/
inductive WsEvent where
  | evConnected
  | evDisconnected
  | evDataReceived (payload : List Nat)
  | evError
  deriving DecidableEq, Repr

/-- The part of the module state `ws_client` (plus the socket flag) that
    `websocket_client_disconnect` reads or writes. -/
structure WsClient where
  state : WsState
  pingTimerActive : Bool
  reconnectTimerActive : Bool
  tcpConnected : Bool
  deriving DecidableEq, Repr

/-- Everything observable about one `websocket_client_disconnect` call:
    the state afterwards, the events emitted, whether a Close frame send was
    attempted, and the return value. -/
structure WsDisconnectResult where
  client : WsClient
  events : List WsEvent
  closeFrameSent : Bool
  ret : EspErr
  deriving DecidableEq, Repr

/-- `websocket_client_disconnect` (websocket_client.c lines 147-184): when the
    state is not Connected the function returns OK immediately, touching
    nothing; otherwise it stops both timers, attempts a Close frame, closes
    the TCP socket, moves to Disconnected and emits a Disconnected event. -/
def websocket_client_disconnect (c : WsClient) : WsDisconnectResult :=
  if c.state ≠ WsState.connected then ⟨c, [], false, EspErr.ok⟩
  else
    ⟨⟨WsState.disconnected, false, false, false⟩,
      [WsEvent.evDisconnected], true, EspErr.ok⟩

/-- Marker scan of `sim7670g_tcp_receive` (sim7670g_modem.c lines 821-845):
    look for "RECV FROM:", else "+IPD"; from the marker look for "HTTP/";
    failing that, find "+IPD" within the marker tail and skip from four bytes
    past it until the first uppercase letter (a NUL or the end of the
    accumulated text stops the skip with no payload).  Returns the offset of
    the payload start, if any. -/
def recvPayloadStart (acc : List Nat) : Option Nat :=
  let marker :=
    match findSub acc (bytes "RECV FROM:") with
    | some r => some r
    | none => findSub acc (bytes "+IPD")
  match marker with
  | none => none
  | some r =>
    let tail := acc.drop r
    match findSub tail (bytes "HTTP/") with
    | some j => some (r + j)
    | none =>
      match findSub tail (bytes "+IPD") with
      | none => none
      | some k =>
        let base := r + k + 4
        let rest := acc.drop base
        let skip := (rest.takeWhile (fun ch => ch != 0 && !(65 ≤ ch && ch ≤ 90))).length
        match rest.drop skip with
        | [] => none
        | ch :: _ => if ch == 0 then none else some (base + skip)

/-- Read-and-scan loop of `sim7670g_tcp_receive` (lines 809-862): accumulate
    chunks up to the buffer capacity; after each nonempty chunk scan for a
    payload start and, when found, copy from there bounded by the caller's
    buffer (`buffer_size - 1`).  Returns the extracted payload (if any) and
    the final accumulated bytes. -/
def tcp_receive_loop (bufSize : Nat) : List (List Nat) → List Nat →
    Option (List Nat) × List Nat
  | [], acc => (none, acc)
  | c :: rest, acc =>
    if AT_BUF_CAP ≤ acc.length then (none, acc)
    else if c.isEmpty then tcp_receive_loop bufSize rest acc
    else
      let acc2 := acc ++ c.take (AT_BUF_CAP - acc.length)
      match recvPayloadStart acc2 with
      | some p =>
        (some ((acc2.drop p).take (min (acc2.length - p) (bufSize - 1))), acc2)
      | none => tcp_receive_loop bufSize rest acc2

/-- `sim7670g_tcp_receive` (lines 791-873): argument check, then the mutex —
    a busy mutex returns `ESP_ERR_TIMEOUT` — then the loop; afterwards zero
    accumulated bytes is `ESP_ERR_TIMEOUT` and anything else without a payload
    is `ESP_ERR_NOT_FOUND`. -/
def sim7670g_tcp_receive (tcpConnected mutexAvail : Bool) (bufSize : Nat)
    (chunks : List (List Nat)) : EspErr × List Nat :=
  if !tcpConnected || bufSize == 0 then (EspErr.invalidArg, [])
  else if !mutexAvail then (EspErr.timeout, [])
  else
    match tcp_receive_loop bufSize chunks [] with
    | (some payload, _) => (EspErr.ok, payload)
    | (none, acc) =>
      if acc.length == 0 then (EspErr.timeout, []) else (EspErr.notFound, [])

/-- `websocket_parse_response` (websocket_client.c lines 467-496): the
    response must contain the literal "101 Switching Protocols", one of the
    two spellings "Upgrade: websocket" / "upgrade: websocket", one of
    "Connection: Upgrade" / "connection: upgrade", and one of
    "Sec-WebSocket-Accept:" / "sec-websocket-accept:". -/
def websocket_parse_response (r : List Nat) : Bool :=
  if !(hasSub r (bytes "101 Switching Protocols")) then false
  else if !(hasSub r (bytes "Upgrade: websocket")
      || hasSub r (bytes "upgrade: websocket")) then false
  else if !(hasSub r (bytes "Connection: Upgrade")
      || hasSub r (bytes "connection: upgrade")) then false
  else if !(hasSub r (bytes "Sec-WebSocket-Accept:")
      || hasSub r (bytes "sec-websocket-accept:")) then false
  else true

/-- Response streams for the three transactions of `sim7670g_tcp_connect`
    whose text the function inspects (the AT+CIPCLOSE response is ignored by
    the code and therefore not modelled). -/
structure ConnectEnv where
  netopenChunks : List (List Nat)
  cipopenChunks : List (List Nat)
  statusChunks : List (List Nat)
  deriving Repr

/-- The `expected` pattern of `sim7670g_tcp_connect` (line 571):
    `0,"TCP","<host>",<port>`. -/
def expectedBinding (host : List Nat) (port : Int) : List Nat :=
  bytes "0,\"TCP\",\"" ++ host ++ bytes "\"," ++ bytes (toString port)

/-- `sim7670g_tcp_connect` (sim7670g_modem.c lines 518-590): argument and
    readiness checks, network-open acceptance ("+NETOPEN: 0" or
    "already opened" in the response), CIPOPEN command success, then the
    AT+CIPOPEN? status query whose text must contain (`strstr`) the expected
    binding substring before the socket is marked connected.  Returns the
    error code and the resulting `tcp_connected` flag. -/
def sim7670g_tcp_connect (ready : Bool) (host : Option (List Nat)) (port : Int)
    (env : ConnectEnv) : EspErr × Bool :=
  match host with
  | none => (EspErr.invalidArg, false)
  | some h =>
    if port ≤ 0 then (EspErr.invalidArg, false)
    else if !ready then (EspErr.invalidState, false)
    else
      let netopen := send_at_command env.netopenChunks
      if !(hasSub netopen.text (bytes "+NETOPEN: 0")
          || hasSub netopen.text (bytes "already opened")) then (EspErr.fail, false)
      else
        let cipopen := send_at_command env.cipopenChunks
        if !cipopen.success then (EspErr.fail, false)
        else if hasSub cipopen.text (bytes "OK") then
          let st := send_at_command env.statusChunks
          if st.success then
            if hasSub st.text (expectedBinding h port) then (EspErr.ok, true)
            else (EspErr.fail, false)
          else (EspErr.fail, false)
        else (EspErr.fail, false)

/-- Text frame opcode (`WS_OPCODE_TEXT`). -/
def WS_OPCODE_TEXT : Nat := 1

/-- The masking-key bytes derived from the 32-bit random value, exactly as
    `websocket_send_frame` unpacks them (big-endian). -/
def maskKeyBytes (mask : Nat) : List Nat :=
  [(mask >>> 24) &&& 255, (mask >>> 16) &&& 255, (mask >>> 8) &&& 255,
    mask &&& 255]

/-- `masking_key[i % 4]` for the 32-bit value `mask`. -/
def keyByte (mask i : Nat) : Nat :=
  if i % 4 == 0 then (mask >>> 24) &&& 255
  else if i % 4 == 1 then (mask >>> 16) &&& 255
  else if i % 4 == 2 then (mask >>> 8) &&& 255
  else mask &&& 255

/-- The masking loop of `websocket_send_frame`:
    `frame[..] = payload[i] ^ masking_key[i % 4]`, starting at index `i`. -/
def maskPayload (mask : Nat) : Nat → List Nat → List Nat
  | _, [] => []
  | i, b :: rest => (b ^^^ keyByte mask i) :: maskPayload mask (i + 1) rest

/-- The header bytes of `websocket_send_frame` (websocket_client.c lines
    404-425): FIN plus opcode, then MASK bit plus the three-tier length
    encoding (direct below 126, 2-byte extended with marker 126 below 65536,
    8-byte extended with marker 127 and only the low 32 bits populated). -/
def encHeader (opcode len : Nat) : List Nat :=
  (0x80 ||| (opcode &&& 0x0F)) ::
    (if len < 126 then [0x80 ||| len]
     else if len < 65536 then [0x80 ||| 126, (len >>> 8) &&& 255, len &&& 255]
     else [0x80 ||| 127, 0, 0, 0, 0, (len >>> 24) &&& 255, (len >>> 16) &&& 255,
       (len >>> 8) &&& 255, len &&& 255])

/-- `websocket_send_frame` (lines 394-465) up to the transport write: payloads
    above 1024 bytes are rejected with an argument error (`none`); otherwise
    the wire bytes are header, masking key, then the masked payload. -/
def websocket_send_frame (opcode : Nat) (payload : List Nat) (mask : Nat) :
    Option (List Nat) :=
  if 1024 < payload.length then none
  else some (encHeader opcode payload.length ++ maskKeyBytes mask ++
    maskPayload mask 0 payload)

/-- Inbound frame parsing of `websocket_client_process` (lines 252-267):
    opcode from the low nibble of the first byte, 7-bit length from the
    second, a 2-byte extended length when it reads 126 (payload from offset
    4), offset 10 with the length left at 127 for the unimplemented 8-byte
    form, otherwise payload from offset 2.  Returns the opcode and the
    payload slice. -/
def wsDecodeFrame (buf : List Nat) : Option (Nat × List Nat) :=
  if buf.length < 2 then none
  else
    let opcode := buf.getD 0 0 &&& 0x0F
    let len0 := buf.getD 1 0 &&& 0x7F
    if len0 == 126 then
      some (opcode, (buf.drop 4).take ((buf.getD 2 0 <<< 8) ||| buf.getD 3 0))
    else if len0 == 127 then
      some (opcode, (buf.drop 10).take len0)
    else
      some (opcode, (buf.drop 2).take len0)

/-- Modelled from the spec (§4.5, §6 wire format): the peer strips the 4-byte
    masking key that follows the `headerLen`-byte header and XORs every
    payload byte with `mask[i % 4]` again (unmasking), which is what "the
    resulting bytes after removing the mask" denotes in the round-trip
    property. -/
def stripMask (headerLen mask : Nat) (frame : List Nat) : List Nat :=
  frame.take headerLen ++ maskPayload mask 0 (frame.drop (headerLen + 4))

/-- `websocket_generate_key` (websocket_client.c lines 498-504): the function
    writes the fixed literal "x3JJHMbDL1EzLkh9GBhXDw==" into the key buffer
    with `snprintf` — no randomness source is consulted. -/
def websocket_generate_key : List Nat := bytes "x3JJHMbDL1EzLkh9GBhXDw=="

/-- The HTTP Upgrade request composed by `websocket_perform_handshake`
    (lines 350-363), with the key produced by `websocket_generate_key`
    substituted where the `%s` for `ws_client.websocket_key` appears. -/
def websocket_handshake_request (path hostName : List Nat) (port : Int) :
    List Nat :=
  bytes "GET " ++ (path ++ (bytes " HTTP/1.1\r\nHost: " ++ (hostName ++
    (bytes ":" ++ (bytes (toString port) ++
    (bytes "\r\nUpgrade: websocket\r\nConnection: Upgrade\r\nSec-WebSocket-Key: " ++
    (websocket_generate_key ++ bytes "\r\nSec-WebSocket-Version: 13\r\n\r\n")))))))

/-- `websocket_client_send_text` (websocket_client.c lines 186-200) composed
    with the frame encoder it calls: the state check precedes the null check;
    the payload length is the `length` argument when nonzero, else
    `strlen(message)`; the encoder reads that many bytes from the message
    buffer (modelled as the in-bounds prefix `take`, the only case in which
    the C read is defined).  The transport is abstracted as succeeding, so
    the result is the error code paired with the wire bytes when a frame was
    encoded. -/
def websocket_client_send_text (state : WsState) (message : Option (List Nat))
    (length mask : Nat) : EspErr × Option (List Nat) :=
  if state ≠ WsState.connected then (EspErr.invalidState, none)
  else
    match message with
    | none => (EspErr.invalidArg, none)
    | some msg =>
      let msg_len := if 0 < length then length else msg.length
      match websocket_send_frame WS_OPCODE_TEXT (msg.take msg_len) mask with
      | some f => (EspErr.ok, some f)
      | none => (EspErr.invalidArg, none)

/-! ## Theorems -/

theorem startsWithL_append (p t : List Nat) : startsWithL (p ++ t) p = true := by
  induction p with
  | nil => cases t <;> rfl
  | cons a p ih => simp [startsWithL, ih]

theorem hasSub_append_right (s t p : List Nat) (h : hasSub t p = true) :
    hasSub (s ++ t) p = true := by
  induction s with
  | nil => simpa using h
  | cons a s ih =>
    unfold hasSub findSub
    rcases hs : startsWithL (a :: (s ++ t)) p with _ | _
    · simpa [hs, Option.isSome_map] using ih
    · simp [hs]

theorem hasSub_self_start (p t : List Nat) : hasSub (p ++ t) p = true := by
  cases p with
  | nil =>
    cases t with
    | nil => decide
    | cons a t => simp [hasSub, findSub, startsWithL]
  | cons a p =>
    have h := startsWithL_append (a :: p) t
    simp only [hasSub, findSub, List.cons_append] at h ⊢
    simp [h]

theorem hasSub_suffix (pre pat : List Nat) : hasSub (pre ++ pat) pat = true := by
  have h : hasSub pat pat = true := by
    have := hasSub_self_start pat []
    simpa using this
  exact hasSub_append_right pre pat pat h

theorem list_take_of_len_le {l : List Nat} {n : Nat} (h : l.length ≤ n) :
    l.take n = l := List.take_of_length_le h

/-- A single full synthetic response delivered as one chunk is accumulated
    verbatim when it fits the buffer: whether or not a completion marker is
    found, the loop ends with exactly that text. -/
theorem atAccumulate_single (R : List Nat) (hne : R ≠ [])
    (hcap : R.length ≤ AT_BUF_CAP) :
    atAccumulate [R] [] = R := by
  have hni : R.isEmpty = false := by simpa [List.isEmpty_iff] using hne
  unfold atAccumulate
  rw [if_neg (by decide : ¬ AT_BUF_CAP ≤ ([] : List Nat).length), hni]
  simp only [Bool.false_eq_true, if_false, List.nil_append, List.length_nil,
    Nat.sub_zero, list_take_of_len_le hcap]
  split <;> simp [atAccumulate]

/-- C7 (amended): `success` is true iff at least one byte was accumulated and
    the text contains "OK"; a synthetic response ending in "OK" (within buffer
    capacity) is returned verbatim with success; a response ending in "ERROR"
    or in "FAIL" yields failure provided it does not also contain "OK"
    elsewhere. -/
theorem c7_send_at_command_success (chunks : List (List Nat))
    (pre preE preF : List Nat)
    (hokCap : (pre ++ bytes "OK").length ≤ AT_BUF_CAP)
    (herrCap : (preE ++ bytes "ERROR").length ≤ AT_BUF_CAP)
    (hfailCap : (preF ++ bytes "FAIL").length ≤ AT_BUF_CAP)
    (herrNoOk : hasSub (preE ++ bytes "ERROR") (bytes "OK") = false)
    (hfailNoOk : hasSub (preF ++ bytes "FAIL") (bytes "OK") = false) :
    ((send_at_command chunks).success = true ↔
      (send_at_command chunks).text ≠ [] ∧
        hasSub (send_at_command chunks).text (bytes "OK") = true) ∧
    send_at_command [pre ++ bytes "OK"] = ⟨pre ++ bytes "OK", true⟩ ∧
    (send_at_command [preE ++ bytes "ERROR"]).success = false ∧
    (send_at_command [preF ++ bytes "FAIL"]).success = false := by
  refine ⟨?_, ?_, ?_, ?_⟩
  · simp [send_at_command, Bool.and_eq_true, List.isEmpty_iff]
  · have hne : pre ++ bytes "OK" ≠ [] := by simp [bytes]
    have hok : hasSub (pre ++ bytes "OK") (bytes "OK") = true := hasSub_suffix _ _
    have hacc := atAccumulate_single (pre ++ bytes "OK") hne hokCap
    have hni : (pre ++ bytes "OK").isEmpty = false := by
      simpa [List.isEmpty_iff] using hne
    simp [send_at_command, hacc, hni, hok]
  · have hne : preE ++ bytes "ERROR" ≠ [] := by simp [bytes]
    have herr : hasSub (preE ++ bytes "ERROR") (bytes "ERROR") = true :=
      hasSub_suffix _ _
    have hacc := atAccumulate_single (preE ++ bytes "ERROR") hne herrCap
    simp [send_at_command, hacc, herrNoOk]
  · have hne : preF ++ bytes "FAIL" ≠ [] := by simp [bytes]
    have hfail : hasSub (preF ++ bytes "FAIL") (bytes "FAIL") = true :=
      hasSub_suffix _ _
    have hacc := atAccumulate_single (preF ++ bytes "FAIL") hne hfailCap
    simp [send_at_command, hacc, hfailNoOk]

/-- C7 witness: the amended theorem applied at concrete inputs. -/
theorem c7_send_at_command_success_witness :
    ((send_at_command [bytes "AT\r\nOK\r\n"]).success = true ↔
      (send_at_command [bytes "AT\r\nOK\r\n"]).text ≠ [] ∧
        hasSub (send_at_command [bytes "AT\r\nOK\r\n"]).text (bytes "OK") = true) ∧
    send_at_command [bytes "AT+CREG?\r\n" ++ bytes "OK"] =
      ⟨bytes "AT+CREG?\r\n" ++ bytes "OK", true⟩ ∧
    (send_at_command [bytes "AT+X\r\n" ++ bytes "ERROR"]).success = false ∧
    (send_at_command [bytes "AT+Y\r\n" ++ bytes "FAIL"]).success = false :=
  c7_send_at_command_success [bytes "AT\r\nOK\r\n"]
    (bytes "AT+CREG?\r\n") (bytes "AT+X\r\n") (bytes "AT+Y\r\n")
    (by decide) (by decide) (by decide) (by decide) (by decide)

/-- C7 counterexample to the claim as stated: the response "OK ERROR" ends in
    "ERROR", yet `send_at_command` reports success, because the accumulated
    text contains "OK". -/
theorem c7_counterexample :
    (send_at_command [bytes "OK ERROR"]).success = true ∧
    bytes "OK ERROR" = bytes "OK " ++ bytes "ERROR" := by
  exact ⟨by decide, by decide⟩

/-- C1 (code bug): for a requested length of 40 and a confirmation reporting
    sent-count 12, both send implementations still report success — the main
    implementation never parses the count, and the variant parses it, logs
    "TCP send incomplete" on mismatch, but leaves `success` true.  The claim
    (and the spec) require the mismatch to be a failure.  The equal-count
    scenario (count 40) succeeds as the claim states. -/
theorem c1_partial_send_reported_success :
    cipsendCount (bytes "\r\n+CIPSEND: 0,12\r\nOK\r\n") = some 12 ∧
    tcp_send_confirm_variant 40 (bytes "\r\n+CIPSEND: 0,12\r\nOK\r\n") = true ∧
    tcp_send_confirm_main (bytes "\r\n+CIPSEND: 0,12\r\nOK\r\n") = true ∧
    tcp_send_confirm_variant 40 (bytes "\r\n+CIPSEND: 0,40\r\nOK\r\n") = true := by
  decide

/-- C8: the comma-delimited registration code is mapped
    0 → NotRegistered, 1 → Home, 2 → Searching, 3 → Denied, 5 → Roaming,
    anything else → Unknown; a response carrying code 5 maps to Roaming; and
    `isReady` is true iff initialized, responsive, SIM Ready, registration
    Home or Roaming, and the data context active — in particular it stays
    false after a Roaming registration while the data context is inactive. -/
theorem c8_registration_and_ready (c : Int) (s : ModemReadyStatus)
    (hc : c ≠ 0 ∧ c ≠ 1 ∧ c ≠ 2 ∧ c ≠ 3 ∧ c ≠ 5) :
    regMap 0 = RegStatus.notRegistered ∧ regMap 1 = RegStatus.okHome ∧
    regMap 2 = RegStatus.searching ∧ regMap 3 = RegStatus.denied ∧
    regMap 5 = RegStatus.okRoaming ∧ regMap c = RegStatus.unknown ∧
    sim7670g_get_registration_status [bytes "\r\n+CREG: 0,5\r\n\r\nOK\r\n"] =
      RegStatus.okRoaming ∧
    (sim7670g_is_ready s = true ↔
      s.initialized = true ∧ s.at_responsive = true ∧
        s.sim_status = SimStatus.ready ∧
        (s.registration_status = RegStatus.okHome ∨
          s.registration_status = RegStatus.okRoaming) ∧
        s.pdp_active = true) ∧
    sim7670g_is_ready
      ⟨true, true, SimStatus.ready, RegStatus.okRoaming, false⟩ = false := by
  obtain ⟨h0, h1, h2, h3, h5⟩ := hc
  refine ⟨rfl, rfl, rfl, rfl, rfl, ?_, by decide, ?_, by decide⟩
  · simp [regMap, h0, h1, h2, h3, h5]
  · obtain ⟨i, r, ss, rs, pa⟩ := s
    simp [sim7670g_is_ready, and_assoc]

/-- C8 witness: the theorem applied at code 7 and a Roaming-but-no-data
    status record. -/
theorem c8_registration_and_ready_witness :
    regMap 0 = RegStatus.notRegistered ∧ regMap 1 = RegStatus.okHome ∧
    regMap 2 = RegStatus.searching ∧ regMap 3 = RegStatus.denied ∧
    regMap 5 = RegStatus.okRoaming ∧ regMap 7 = RegStatus.unknown ∧
    sim7670g_get_registration_status [bytes "\r\n+CREG: 0,5\r\n\r\nOK\r\n"] =
      RegStatus.okRoaming ∧
    (sim7670g_is_ready
        ⟨true, true, SimStatus.ready, RegStatus.okRoaming, false⟩ = true ↔
      (true : Bool) = true ∧ (true : Bool) = true ∧
        SimStatus.ready = SimStatus.ready ∧
        (RegStatus.okRoaming = RegStatus.okHome ∨
          RegStatus.okRoaming = RegStatus.okRoaming) ∧
        (false : Bool) = true) ∧
    sim7670g_is_ready
      ⟨true, true, SimStatus.ready, RegStatus.okRoaming, false⟩ = false :=
  c8_registration_and_ready 7
    ⟨true, true, SimStatus.ready, RegStatus.okRoaming, false⟩
    (by decide)

/-- C2 counterexample: calling disconnect from the Error state (timers
    running, socket up) returns OK but leaves the state Error, keeps both
    timers running, keeps the socket open and emits no Disconnected event —
    the claim demanded a transition to Disconnected with both timers stopped
    and a Disconnected event from every starting state. -/
theorem c2_counterexample :
    (websocket_client_disconnect ⟨WsState.stateError, true, true, true⟩).client =
      ⟨WsState.stateError, true, true, true⟩ ∧
    (websocket_client_disconnect ⟨WsState.stateError, true, true, true⟩).events = [] ∧
    (websocket_client_disconnect ⟨WsState.stateError, true, true, true⟩).ret =
      EspErr.ok := by
  decide

/-- C2 (amended): from any state other than Connected, disconnect is a no-op
    success (state, timers, socket untouched, no event, no Close frame); from
    Connected it stops both timers, sends a Close frame, closes the socket,
    transitions to Disconnected and emits a Disconnected event. -/
theorem c2_disconnect_behavior (c : WsClient) :
    (c.state ≠ WsState.connected →
      websocket_client_disconnect c = ⟨c, [], false, EspErr.ok⟩) ∧
    (c.state = WsState.connected →
      websocket_client_disconnect c =
        ⟨⟨WsState.disconnected, false, false, false⟩,
          [WsEvent.evDisconnected], true, EspErr.ok⟩) := by
  constructor <;> intro h <;> simp [websocket_client_disconnect, h]

/-- C2 witness: the amended theorem applied to a Connected client and to a
    Disconnected one. -/
theorem c2_disconnect_behavior_witness :
    websocket_client_disconnect ⟨WsState.connected, true, false, true⟩ =
      ⟨⟨WsState.disconnected, false, false, false⟩,
        [WsEvent.evDisconnected], true, EspErr.ok⟩ ∧
    websocket_client_disconnect ⟨WsState.disconnected, false, false, false⟩ =
      ⟨⟨WsState.disconnected, false, false, false⟩, [], false, EspErr.ok⟩ :=
  ⟨(c2_disconnect_behavior ⟨WsState.connected, true, false, true⟩).2 rfl,
    (c2_disconnect_behavior ⟨WsState.disconnected, false, false, false⟩).1
      (by decide)⟩

/-- C3 counterexample: when the channel mutex is unavailable the receive
    returns `ESP_ERR_TIMEOUT` — byte-for-byte the same outcome as a genuine
    no-data timeout — although data was available; the claim demanded a
    distinct "channel busy" error never conflated with Timeout. -/
theorem c3_counterexample :
    sim7670g_tcp_receive true false 1024 [bytes "RECV FROM:HTTP/1.1 200 OK"] =
      (EspErr.timeout, []) ∧
    sim7670g_tcp_receive true true 1024 [] = (EspErr.timeout, []) := by
  decide

/-- C3 (amended): the receive has the three data outcomes the claim lists —
    Timeout when zero bytes ever arrived, NotFound when bytes arrived but no
    payload was extracted, Ok with the extracted payload — but a busy channel
    is reported with the same `ESP_ERR_TIMEOUT` code as a timeout, not with a
    distinct busy error. -/
theorem c3_receive_outcomes (chunks : List (List Nat)) (bufSize : Nat)
    (hb : 0 < bufSize) :
    sim7670g_tcp_receive true false bufSize chunks = (EspErr.timeout, []) ∧
    (∀ p, (tcp_receive_loop bufSize chunks []).1 = some p →
      sim7670g_tcp_receive true true bufSize chunks = (EspErr.ok, p)) ∧
    ((tcp_receive_loop bufSize chunks []).1 = none →
      (tcp_receive_loop bufSize chunks []).2 = [] →
      sim7670g_tcp_receive true true bufSize chunks = (EspErr.timeout, [])) ∧
    ((tcp_receive_loop bufSize chunks []).1 = none →
      (tcp_receive_loop bufSize chunks []).2 ≠ [] →
      sim7670g_tcp_receive true true bufSize chunks = (EspErr.notFound, [])) := by
  have hb0 : (bufSize == 0) = false := by
    simp [Nat.pos_iff_ne_zero.mp hb]
  refine ⟨by simp [sim7670g_tcp_receive, hb0], ?_, ?_, ?_⟩
  · intro p hp
    rcases hL : tcp_receive_loop bufSize chunks [] with ⟨op, acc⟩
    rw [hL] at hp
    simp only at hp
    subst hp
    simp [sim7670g_tcp_receive, hb0, hL]
  · intro h1 h2
    rcases hL : tcp_receive_loop bufSize chunks [] with ⟨op, acc⟩
    rw [hL] at h1 h2
    simp only at h1 h2
    subst h1
    subst h2
    simp [sim7670g_tcp_receive, hb0, hL]
  · intro h1 h2
    rcases hL : tcp_receive_loop bufSize chunks [] with ⟨op, acc⟩
    rw [hL] at h1 h2
    simp only at h1 h2
    subst h1
    simp [sim7670g_tcp_receive, hb0, hL, List.length_eq_zero, h2]

/-- C3 witness: the Ok branch of the amended theorem at the spec's own
    scenario — "+IPD" followed by an HTTP payload — extracting from the
    "HTTP/1.1" onward. -/
theorem c3_receive_outcomes_witness :
    sim7670g_tcp_receive true true 1024 [bytes "+IPD,25:HTTP/1.1 200 OK\r\n"] =
      (EspErr.ok, bytes "HTTP/1.1 200 OK\r\n") :=
  (c3_receive_outcomes [bytes "+IPD,25:HTTP/1.1 200 OK\r\n"] 1024
    (by decide)).2.1 (bytes "HTTP/1.1 200 OK\r\n") (by decide)

/-- C4 counterexample: a response whose status line carries the "101" token
    (but not the phrase "Switching Protocols"), with Upgrade, Connection and
    Sec-WebSocket-Accept headers all present, is rejected — the claim said
    those four conditions make validation succeed. -/
theorem c4_counterexample :
    websocket_parse_response (bytes "HTTP/1.1 101 OK\r\nUpgrade: websocket\r\nConnection: Upgrade\r\nSec-WebSocket-Accept: abc\r\n\r\n") = false ∧
    hasSub (bytes "HTTP/1.1 101 OK\r\nUpgrade: websocket\r\nConnection: Upgrade\r\nSec-WebSocket-Accept: abc\r\n\r\n") (bytes "101") = true ∧
    hasSub (bytes "HTTP/1.1 101 OK\r\nUpgrade: websocket\r\nConnection: Upgrade\r\nSec-WebSocket-Accept: abc\r\n\r\n") (bytes "Upgrade: websocket") = true ∧
    hasSub (bytes "HTTP/1.1 101 OK\r\nUpgrade: websocket\r\nConnection: Upgrade\r\nSec-WebSocket-Accept: abc\r\n\r\n") (bytes "Connection: Upgrade") = true ∧
    hasSub (bytes "HTTP/1.1 101 OK\r\nUpgrade: websocket\r\nConnection: Upgrade\r\nSec-WebSocket-Accept: abc\r\n\r\n") (bytes "Sec-WebSocket-Accept:") = true := by
  decide

/-- C4 (amended): validation succeeds iff the response contains the literal
    "101 Switching Protocols" and, for each header, one of exactly two
    spellings (all-lowercase or canonical) — not an arbitrary case-insensitive
    match; removing any one of the four conditions from a passing response
    causes rejection. -/
theorem c4_parse_response_characterization (r : List Nat) :
    (websocket_parse_response r = true ↔
      hasSub r (bytes "101 Switching Protocols") = true ∧
      (hasSub r (bytes "Upgrade: websocket") = true ∨
        hasSub r (bytes "upgrade: websocket") = true) ∧
      (hasSub r (bytes "Connection: Upgrade") = true ∨
        hasSub r (bytes "connection: upgrade") = true) ∧
      (hasSub r (bytes "Sec-WebSocket-Accept:") = true ∨
        hasSub r (bytes "sec-websocket-accept:") = true)) ∧
    websocket_parse_response (bytes "HTTP/1.1 101 Switching Protocols\r\nUpgrade: websocket\r\nConnection: Upgrade\r\nSec-WebSocket-Accept: abc\r\n\r\n") = true ∧
    websocket_parse_response (bytes "HTTP/1.1 400 Bad Request\r\nUpgrade: websocket\r\nConnection: Upgrade\r\nSec-WebSocket-Accept: abc\r\n\r\n") = false ∧
    websocket_parse_response (bytes "HTTP/1.1 101 Switching Protocols\r\nConnection: Upgrade\r\nSec-WebSocket-Accept: abc\r\n\r\n") = false ∧
    websocket_parse_response (bytes "HTTP/1.1 101 Switching Protocols\r\nUpgrade: websocket\r\nSec-WebSocket-Accept: abc\r\n\r\n") = false ∧
    websocket_parse_response (bytes "HTTP/1.1 101 Switching Protocols\r\nUpgrade: websocket\r\nConnection: Upgrade\r\n\r\n") = false := by
  refine ⟨?_, by decide, by decide, by decide, by decide, by decide⟩
  simp [websocket_parse_response]

/-- If a command-engine transaction succeeded, its text contains "OK". -/
theorem send_at_command_success_hasSub (chunks : List (List Nat))
    (hs : (send_at_command chunks).success = true) :
    hasSub (send_at_command chunks).text (bytes "OK") = true := by
  have h := hs
  simp only [send_at_command, Bool.and_eq_true] at h
  simpa [send_at_command] using h.2

/-- C5 counterexample: requesting host "h" port 1 while the status query
    reports the binding `0,"TCP","h",12` — a different port — still marks the
    socket connected and returns OK, because the check is a substring search
    and the expected pattern `0,"TCP","h",1` is a prefix of the reported
    `0,"TCP","h",12`.  The claim said a status response reporting a different
    binding yields a connection failure. -/
theorem c5_counterexample :
    sim7670g_tcp_connect true (some (bytes "h")) 1
      ⟨[bytes "+NETOPEN: 0\r\nOK\r\n"], [bytes "OK\r\n"],
        [bytes "+CIPOPEN: 0,\"TCP\",\"h\",12\r\nOK\r\n"]⟩ = (EspErr.ok, true) ∧
    hasSub (bytes "+CIPOPEN: 0,\"TCP\",\"h\",12\r\nOK\r\n")
      (expectedBinding (bytes "h") 12) = true := by
  decide

/-- C5 (amended): with valid arguments and a ready modem, the connect marks
    the socket connected and returns OK exactly when the network-open
    response carries its acceptance marker, the CIPOPEN and status
    transactions succeed, and the status text contains the expected
    `0,"TCP","<host>",<port>` substring — a containment check, so any status
    text lacking that substring fails, but a reported binding that merely
    extends the requested port's digits is accepted. -/
theorem c5_connect_characterization (h : List Nat) (port : Int)
    (env : ConnectEnv) (hp : 0 < port) :
    (sim7670g_tcp_connect true (some h) port env = (EspErr.ok, true) ↔
      (hasSub (send_at_command env.netopenChunks).text (bytes "+NETOPEN: 0") = true ∨
        hasSub (send_at_command env.netopenChunks).text (bytes "already opened") = true) ∧
      (send_at_command env.cipopenChunks).success = true ∧
      (send_at_command env.statusChunks).success = true ∧
      hasSub (send_at_command env.statusChunks).text (expectedBinding h port) = true) ∧
    (hasSub (send_at_command env.statusChunks).text (expectedBinding h port) = false →
      sim7670g_tcp_connect true (some h) port env ≠ (EspErr.ok, true)) := by
  have hple : ¬ port ≤ 0 := not_le.mpr hp
  have hiff : sim7670g_tcp_connect true (some h) port env = (EspErr.ok, true) ↔
      (hasSub (send_at_command env.netopenChunks).text (bytes "+NETOPEN: 0") = true ∨
        hasSub (send_at_command env.netopenChunks).text (bytes "already opened") = true) ∧
      (send_at_command env.cipopenChunks).success = true ∧
      (send_at_command env.statusChunks).success = true ∧
      hasSub (send_at_command env.statusChunks).text (expectedBinding h port) = true := by
    unfold sim7670g_tcp_connect
    rcases hno : hasSub (send_at_command env.netopenChunks).text (bytes "+NETOPEN: 0")
      with _ | _ <;>
    rcases hao : hasSub (send_at_command env.netopenChunks).text (bytes "already opened")
      with _ | _ <;>
    rcases hco : (send_at_command env.cipopenChunks).success with _ | _ <;>
    rcases hst : (send_at_command env.statusChunks).success with _ | _ <;>
    rcases hbind : hasSub (send_at_command env.statusChunks).text (expectedBinding h port)
      with _ | _ <;>
      simp_all [hple, send_at_command_success_hasSub env.cipopenChunks] <;>
      (split <;> simp_all)
  refine ⟨hiff, fun hnb hc => ?_⟩
  have := (hiff.mp hc).2.2.2
  rw [hnb] at this
  exact Bool.false_ne_true this

/-- C5 witness: the amended theorem applied to a status response that echoes
    the requested binding verbatim. -/
theorem c5_connect_characterization_witness :
    sim7670g_tcp_connect true (some (bytes "example.com")) 8080
      ⟨[bytes "already opened\r\nOK\r\n"], [bytes "OK\r\n"],
        [bytes "+CIPOPEN: 0,\"TCP\",\"example.com\",8080\r\nOK\r\n"]⟩ =
      (EspErr.ok, true) :=
  (c5_connect_characterization (bytes "example.com") 8080
    ⟨[bytes "already opened\r\nOK\r\n"], [bytes "OK\r\n"],
      [bytes "+CIPOPEN: 0,\"TCP\",\"example.com\",8080\r\nOK\r\n"]⟩
    (by decide)).1.mpr (by decide)

theorem maskPayload_maskPayload (mask : Nat) (i : Nat) (l : List Nat) :
    maskPayload mask i (maskPayload mask i l) = l := by
  induction l generalizing i with
  | nil => rfl
  | cons b rest ih =>
    simp [maskPayload, Nat.xor_assoc, Nat.xor_self, ih]

theorem byte1_small (n : Nat) (h : n < 126) : (128 ||| n) &&& 127 = n := by
  revert h
  revert n
  decide

theorem extlen_recombine (n : Nat) (h : n < 1025) :
    ((n >>> 8) &&& 255) <<< 8 ||| (n &&& 255) = n := by
  revert h
  revert n
  decide

/-- C6 counterexample: a 1025-byte payload is inside the claim's
    [126, 65535) range, but the encoder rejects it with an argument error
    (the 1024-byte payload ceiling), so no frame exists to round-trip. -/
theorem c6_counterexample :
    websocket_send_frame WS_OPCODE_TEXT (List.replicate 1025 65) 305419896 =
      none := by
  simp [websocket_send_frame]

/-- C6 (amended): encoding a Text frame and decoding the bytes after removing
    the mask (as the peer would) reproduces the Text opcode and the payload
    exactly, for payload lengths below 126 (2-byte header) and for lengths in
    [126, 1024] (4-byte header with the 2-byte extended form); lengths above
    1024 — including the rest of the claim's [126, 65535) range — are
    rejected by the encoder's payload ceiling before any frame is built. -/
theorem c6_frame_round_trip (payload : List Nat) (mask : Nat) :
    (payload.length < 126 →
      ∃ f, websocket_send_frame WS_OPCODE_TEXT payload mask = some f ∧
        wsDecodeFrame (stripMask 2 mask f) = some (WS_OPCODE_TEXT, payload)) ∧
    (126 ≤ payload.length → payload.length ≤ 1024 →
      ∃ f, websocket_send_frame WS_OPCODE_TEXT payload mask = some f ∧
        wsDecodeFrame (stripMask 4 mask f) = some (WS_OPCODE_TEXT, payload)) := by
  constructor
  · intro h126
    refine ⟨encHeader WS_OPCODE_TEXT payload.length ++ maskKeyBytes mask ++
      maskPayload mask 0 payload, ?_, ?_⟩
    · unfold websocket_send_frame
      rw [if_neg (by omega)]
    · have hhead : 128 ||| (WS_OPCODE_TEXT &&& 15) = 129 := by decide
      have hhdr : encHeader WS_OPCODE_TEXT payload.length =
          [129, 128 ||| payload.length] := by
        unfold encHeader
        rw [if_pos h126, hhead]
      rw [hhdr]
      show wsDecodeFrame
        (stripMask 2 mask (129 :: (128 ||| payload.length) ::
          (maskKeyBytes mask ++ maskPayload mask 0 payload))) = _
      unfold stripMask maskKeyBytes
      simp only [List.take_succ_cons, List.take_zero, List.drop_succ_cons,
        List.cons_append, List.nil_append, List.drop_nil]
      show wsDecodeFrame (129 :: (128 ||| payload.length) ::
        maskPayload mask 0 (maskPayload mask 0 payload)) = _
      rw [maskPayload_maskPayload]
      unfold wsDecodeFrame
      rw [if_neg (by simp)]
      simp only [List.getD_cons_zero, List.getD_cons_succ]
      rw [byte1_small payload.length h126]
      rw [if_neg (by simp; omega), if_neg (by simp; omega)]
      simp [WS_OPCODE_TEXT, List.take_length]
      decide
  · intro h126 h1024
    refine ⟨encHeader WS_OPCODE_TEXT payload.length ++ maskKeyBytes mask ++
      maskPayload mask 0 payload, ?_, ?_⟩
    · unfold websocket_send_frame
      rw [if_neg (by omega)]
    · have hhead : 128 ||| (WS_OPCODE_TEXT &&& 15) = 129 := by decide
      have hext : 128 ||| 126 = 254 := by decide
      have hhdr : encHeader WS_OPCODE_TEXT payload.length =
          [129, 254, (payload.length >>> 8) &&& 255, payload.length &&& 255] := by
        unfold encHeader
        rw [if_neg (by omega), if_pos (by omega), hhead, hext]
      rw [hhdr]
      show wsDecodeFrame
        (stripMask 4 mask (129 :: 254 :: ((payload.length >>> 8) &&& 255) ::
          (payload.length &&& 255) ::
          (maskKeyBytes mask ++ maskPayload mask 0 payload))) = _
      unfold stripMask maskKeyBytes
      simp only [List.take_succ_cons, List.take_zero, List.drop_succ_cons,
        List.cons_append, List.nil_append, List.drop_nil]
      show wsDecodeFrame (129 :: 254 :: ((payload.length >>> 8) &&& 255) ::
        (payload.length &&& 255) ::
        maskPayload mask 0 (maskPayload mask 0 payload)) = _
      rw [maskPayload_maskPayload]
      unfold wsDecodeFrame
      rw [if_neg (by simp)]
      simp only [List.getD_cons_zero, List.getD_cons_succ]
      rw [if_pos (by decide)]
      rw [extlen_recombine payload.length (by omega)]
      simp [WS_OPCODE_TEXT, List.take_length]
      decide

/-- C6 witness: the round-trip theorem at a 5-byte payload and at a 126-byte
    payload (the first length that uses the extended form). -/
theorem c6_frame_round_trip_witness :
    (∃ f, websocket_send_frame WS_OPCODE_TEXT (bytes "hello") 305419896 =
        some f ∧
      wsDecodeFrame (stripMask 2 305419896 f) =
        some (WS_OPCODE_TEXT, bytes "hello")) ∧
    (∃ f, websocket_send_frame WS_OPCODE_TEXT (List.replicate 126 65)
        2596069104 = some f ∧
      wsDecodeFrame (stripMask 4 2596069104 f) =
        some (WS_OPCODE_TEXT, List.replicate 126 65)) :=
  ⟨(c6_frame_round_trip (bytes "hello") 305419896).1 (by decide),
    (c6_frame_round_trip (List.replicate 126 65) 2596069104).2
      (by simp) (by simp)⟩

/-- C9 counterexample: the Sec-WebSocket-Key value is the fixed constant
    "x3JJHMbDL1EzLkh9GBhXDw==", and two handshake attempts against different
    targets carry byte-identical key headers — the key is not fresh per
    attempt. -/
theorem c9_counterexample :
    websocket_generate_key = bytes "x3JJHMbDL1EzLkh9GBhXDw==" ∧
    hasSub (websocket_handshake_request (bytes "/") (bytes "a.example") 80)
      (bytes "Sec-WebSocket-Key: x3JJHMbDL1EzLkh9GBhXDw==") = true ∧
    hasSub (websocket_handshake_request (bytes "/ws") (bytes "b.example") 8080)
      (bytes "Sec-WebSocket-Key: x3JJHMbDL1EzLkh9GBhXDw==") = true := by
  refine ⟨rfl, by decide, by decide⟩

/-- C9 (amended): every handshake request — whatever the path, host and
    port — carries the same fixed Sec-WebSocket-Key value
    "x3JJHMbDL1EzLkh9GBhXDw=="; the key is identical across all attempts
    rather than fresh per attempt. -/
theorem c9_fixed_key (pa ha pb hb : List Nat) (qa qb : Int) :
    websocket_generate_key = bytes "x3JJHMbDL1EzLkh9GBhXDw==" ∧
    hasSub (websocket_handshake_request pa ha qa)
      (bytes "Sec-WebSocket-Key: " ++ websocket_generate_key) = true ∧
    hasSub (websocket_handshake_request pb hb qb)
      (bytes "Sec-WebSocket-Key: " ++ websocket_generate_key) = true := by
  have htail : hasSub
      (bytes "\r\nUpgrade: websocket\r\nConnection: Upgrade\r\nSec-WebSocket-Key: " ++
        (websocket_generate_key ++ bytes "\r\nSec-WebSocket-Version: 13\r\n\r\n"))
      (bytes "Sec-WebSocket-Key: " ++ websocket_generate_key) = true := by
    decide
  refine ⟨rfl, ?_, ?_⟩ <;>
    exact hasSub_append_right _ _ _ (hasSub_append_right _ _ _
      (hasSub_append_right _ _ _ (hasSub_append_right _ _ _
        (hasSub_append_right _ _ _ (hasSub_append_right _ _ _ htail)))))

theorem maskPayload_length (mask : Nat) (i : Nat) (l : List Nat) :
    (maskPayload mask i l).length = l.length := by
  induction l generalizing i with
  | nil => rfl
  | cons b rest ih => simp [maskPayload, ih]

/-- C10 counterexample: with the client Connected and the auto-length form
    (length argument 0), a 1025-byte NUL-free message produces no Text frame
    at all — the encoder's 1024-byte ceiling turns the call into an argument
    error, where the claim said a frame with payload length strlen(M) is
    sent. -/
theorem c10_counterexample :
    websocket_client_send_text WsState.connected
      (some (List.replicate 1025 65)) 0 7 = (EspErr.invalidArg, none) := by
  decide

/-- C10 (amended): while Connected, a length argument of 0 selects
    strlen(message) and a nonzero argument L selects exactly L payload bytes,
    and the Text frame carries a payload of exactly that many bytes —
    provided the selected length is at most the encoder's 1024-byte ceiling
    (beyond it the call is an argument error); a null message while Connected
    is an argument error, and any non-Connected state is an invalid-state
    error (checked before the null check). -/
theorem c10_send_text_behavior (msg : List Nat) (L mask : Nat) (st : WsState)
    (m : Option (List Nat)) :
    (msg.length ≤ 1024 →
      websocket_client_send_text WsState.connected (some msg) 0 mask =
        (EspErr.ok, some (encHeader WS_OPCODE_TEXT msg.length ++
          maskKeyBytes mask ++ maskPayload mask 0 msg)) ∧
      (maskPayload mask 0 msg).length = msg.length) ∧
    (0 < L → L ≤ msg.length → L ≤ 1024 →
      websocket_client_send_text WsState.connected (some msg) L mask =
        (EspErr.ok, some (encHeader WS_OPCODE_TEXT L ++ maskKeyBytes mask ++
          maskPayload mask 0 (msg.take L))) ∧
      (maskPayload mask 0 (msg.take L)).length = L) ∧
    websocket_client_send_text WsState.connected none L mask =
      (EspErr.invalidArg, none) ∧
    (st ≠ WsState.connected →
      websocket_client_send_text st m L mask = (EspErr.invalidState, none)) := by
  refine ⟨?_, ?_, ?_, ?_⟩
  · intro hcap
    constructor
    · simp only [websocket_client_send_text, websocket_send_frame]
      rw [if_neg (by simp)]
      simp only [Nat.lt_irrefl, if_false, List.take_length]
      rw [if_neg (by omega)]
    · exact maskPayload_length mask 0 msg
  · intro hL hLm hLcap
    have htk : (msg.take L).length = L := by
      simp [List.length_take, Nat.min_eq_left hLm]
    constructor
    · simp only [websocket_client_send_text, websocket_send_frame]
      rw [if_neg (by simp)]
      simp only [if_pos hL]
      rw [htk, if_neg (by omega)]
    · rw [maskPayload_length, htk]
  · simp [websocket_client_send_text]
  · intro hst
    simp [websocket_client_send_text, hst]

/-- C10 witness: the amended theorem at concrete inputs — auto-length send of
    "hi", explicit 1-byte send, and an invalid-state call. -/
theorem c10_send_text_behavior_witness :
    (websocket_client_send_text WsState.connected (some (bytes "hi")) 0 5 =
        (EspErr.ok, some (encHeader WS_OPCODE_TEXT (bytes "hi").length ++
          maskKeyBytes 5 ++ maskPayload 5 0 (bytes "hi"))) ∧
      (maskPayload 5 0 (bytes "hi")).length = (bytes "hi").length) ∧
    (websocket_client_send_text WsState.connected (some (bytes "hi")) 1 5 =
        (EspErr.ok, some (encHeader WS_OPCODE_TEXT 1 ++ maskKeyBytes 5 ++
          maskPayload 5 0 ((bytes "hi").take 1))) ∧
      (maskPayload 5 0 ((bytes "hi").take 1)).length = 1) ∧
    websocket_client_send_text WsState.disconnected (some (bytes "hi")) 0 5 =
      (EspErr.invalidState, none) :=
  ⟨(c10_send_text_behavior (bytes "hi") 0 5 WsState.disconnected none).1
      (by decide),
    (c10_send_text_behavior (bytes "hi") 1 5 WsState.disconnected none).2.1
      (by decide) (by decide) (by decide),
    (c10_send_text_behavior (bytes "hi") 0 5 WsState.disconnected
      (some (bytes "hi"))).2.2.2 (by decide)⟩
